import Mathlib

/-!
Verification of the readiness-detection core of the `tsw_io` desktop launcher
(`src/tauri/src-tauri/src/lib.rs`).

The embedding models the external world (the blocking HTTP GET issued by
`reqwest`, the splash-window `eval` calls) as oracles supplied per attempt,
and the functions `check_backend_ready`, `wait_for_backend`, the background
thread spawned in `run`'s setup closure, and the setup sequence itself as
pure Lean functions that additionally record a trace of the observable
effects they perform (probes, status updates, sleeps, log lines, window and
process actions).
-/

namespace Tsw

/-- `const BACKEND_PORT: u16 = 4000;` -/
def BACKEND_PORT : Nat := 4000

/-- `const MAX_RETRIES: u32 = 120;` -/
def MAX_RETRIES : Nat := 120

/-- `const RETRY_DELAY_MS: u64 = 500;` -/
def RETRY_DELAY_MS : Nat := 500

/-- Outcome of one `reqwest::blocking::get` call: either a response carrying a
status code, or a transport-level failure (`Err(_)` from reqwest: connection
refused, DNS failure, ...). -/
inductive HttpOutcome where
  | response (status : Nat)
  | transportError (msg : String)
deriving DecidableEq, Repr

/-- `reqwest::StatusCode::is_success()`: true exactly for codes 200..=299. -/
def is_success (status : Nat) : Bool :=
  decide (200 ≤ status) && decide (status < 300)

/-- `fn check_backend_ready() -> Result<bool, String>`, as a function of the
outcome of the single HTTP GET it performs. -/
def check_backend_ready (r : HttpOutcome) : Except String Bool :=
  match r with
  | .response status =>
      if is_success status then
        Except.ok true
      else
        -- Server is up but not ready (e.g., migrations running)
        Except.ok false
  | .transportError _ =>
      -- Server not yet responding
      Except.ok false

/-- The threshold-banded status string computed inside `wait_for_backend`
for a non-ready attempt. -/
def statusText (attempt : Nat) : String :=
  if attempt < 10 then "Starting server..."
  else if attempt < 30 then "Running database migrations..."
  else "Almost ready..."

/-- Observable effects of one run of `wait_for_backend`:
* `probe a` — the HTTP GET issued by `check_backend_ready` on attempt `a`;
* `statusUpdate a text ok` — the splash-window `eval` pushing `text` on
  attempt `a`; `ok` records whether the eval succeeded (its `Result` is
  discarded by the code via `let _ = ...`);
* `logHealthError msg` — the `eprintln!("Health check error: ...")` in the
  `Err(e)` arm;
* `sleep a ms` — the `thread::sleep` ending iteration `a`. -/
inductive Event where
  | probe (attempt : Nat)
  | statusUpdate (attempt : Nat) (text : String) (evalOk : Bool)
  | logHealthError (msg : String)
  | sleep (attempt : Nat) (ms : Nat)
deriving DecidableEq, Repr

/-- Events of one loop iteration whose probe classified as `Ok(false)`:
the probe, then (only when the splash window exists) the status update,
then the inter-attempt sleep. -/
def nonReadyEvents (hasSplash : Bool) (evalOk : Nat → Bool) (a : Nat) : List Event :=
  Event.probe a ::
    ((if hasSplash then [Event.statusUpdate a (statusText a) (evalOk a)] else []) ++
      [Event.sleep a RETRY_DELAY_MS])

/-- The `for attempt in 1..=MAX_RETRIES` loop of `wait_for_backend`,
with `a` the current attempt number and `fuel` the number of remaining
iterations.  `probe a` is the outcome of the HTTP GET on attempt `a` and
`evalOk a` the success of the splash `eval` on attempt `a`.  Returns the
boolean result together with the trace of effects. -/
def waitLoop (probe : Nat → HttpOutcome) (hasSplash : Bool) (evalOk : Nat → Bool) :
    Nat → Nat → Bool × List Event
  | _, 0 => (false, [])
  | a, fuel + 1 =>
    match check_backend_ready (probe a) with
    | Except.ok true =>
        -- println! then `return true`: no status update, no sleep
        (true, [Event.probe a])
    | Except.ok false =>
        let rest := waitLoop probe hasSplash evalOk (a + 1) fuel
        (rest.1, nonReadyEvents hasSplash evalOk a ++ rest.2)
    | Except.error e =>
        -- eprintln!("Health check error: {}", e); no status update; then sleep
        let rest := waitLoop probe hasSplash evalOk (a + 1) fuel
        (rest.1, Event.probe a :: Event.logHealthError e :: Event.sleep a RETRY_DELAY_MS :: rest.2)

/-- `fn wait_for_backend(handle) -> bool`: runs the loop from attempt 1 with
`MAX_RETRIES` iterations available; falls through to `false` when the loop
completes without an early return. -/
def wait_for_backend (probe : Nat → HttpOutcome) (hasSplash : Bool) (evalOk : Nat → Bool) :
    Bool × List Event :=
  waitLoop probe hasSplash evalOk 1 MAX_RETRIES

/-- The attempt numbers of the probe events of a trace, in order. -/
def probeList (evs : List Event) : List Nat :=
  evs.filterMap fun e =>
    match e with
    | Event.probe a => some a
    | _ => none

/-- Number of probes (= loop iterations started) recorded in a trace. -/
def probeCount (evs : List Event) : Nat :=
  (probeList evs).length

/-- Number of `Health check error` log lines in a trace. -/
def logErrorCount (evs : List Event) : Nat :=
  (evs.filter fun e =>
    match e with
    | Event.logHealthError _ => true
    | _ => false).length

/-- Forgets whether each status-update eval succeeded; two traces equal after
scrubbing performed exactly the same probes, updates and sleeps. -/
def scrubEval : Event → Event
  | Event.statusUpdate a t _ => Event.statusUpdate a t true
  | e => e

/-- Actions of the background thread spawned in `run`'s setup closure. -/
inductive ThreadAction where
  | buildMainWindow (url : String)
  | closeSplash
  | showMainWindow
  | evalSplashError
  | sleepSecs (s : Nat)
  | exitProcess (code : Nat)
deriving DecidableEq, Repr

/-- `format!("http://localhost:{}", BACKEND_PORT)` -/
def mainUrl : String := "http://localhost:" ++ toString BACKEND_PORT

/-- The closure passed to `std::thread::spawn` in `run`: if `wait_for_backend`
returned true, build the main window at the backend URL, close the splash and
show it; otherwise push the error text to the splash, sleep 3 seconds and call
`std::process::exit(1)`.  The splash window exists at this point (it was built
with `.expect`), so `wait_for_backend` runs with the splash present. -/
def backgroundThread (probe : Nat → HttpOutcome) (evalOk : Nat → Bool) : List ThreadAction :=
  if (wait_for_backend probe true evalOk).1 then
    [ThreadAction.buildMainWindow mainUrl, ThreadAction.closeSplash,
      ThreadAction.showMainWindow]
  else
    [ThreadAction.evalSplashError, ThreadAction.sleepSecs 3, ThreadAction.exitProcess 1]

/-- Actions of `run`'s setup closure before the background thread starts. -/
inductive SetupAction where
  | createSplash (label title : String) (w h : Nat)
  | spawnSidecar (name : String) (env : List (String × String))
  | spawnWaitThread
deriving DecidableEq, Repr

/-- Is this setup action a sidecar spawn? -/
def isSpawn : SetupAction → Bool
  | SetupAction.spawnSidecar _ _ => true
  | _ => false

/-- The setup closure of `run`, as a function of whether obtaining the sidecar
command succeeds (`sidecarOk`) and whether spawning it succeeds (`spawnOk`);
returns the actions performed (in order) and whether setup returned `Ok`.
The splash window is created first (size 400x300); a sidecar-command failure
returns `Err` before any spawn is attempted; a spawn failure returns `Err`
before the wait thread is started. -/
def setup (sidecarOk spawnOk : Bool) : List SetupAction × Bool :=
  let acts := [SetupAction.createSplash "splash" "TSW IO" 400 300]
  if !sidecarOk then
    (acts, false)
  else
    let acts := acts ++ [SetupAction.spawnSidecar "tsw_io_backend"
      [("PORT", toString BACKEND_PORT), ("MIX_ENV", "prod"), ("BURRITO", "1")]]
    if !spawnOk then
      (acts, false)
    else
      (acts ++ [SetupAction.spawnWaitThread], true)

/-- The trace of `n` consecutive non-ready iterations starting at attempt `a`. -/
def iterTrace (hasSplash : Bool) (evalOk : Nat → Bool) : Nat → Nat → List Event
  | _, 0 => []
  | a, n + 1 => nonReadyEvents hasSplash evalOk a ++ iterTrace hasSplash evalOk (a + 1) n

lemma check_total (r : HttpOutcome) :
    check_backend_ready r = Except.ok true ∨ check_backend_ready r = Except.ok false := by
  cases r with
  | response s =>
      by_cases h : is_success s
      · exact Or.inl (by simp [check_backend_ready, h])
      · exact Or.inr (by simp [check_backend_ready, h])
  | transportError m => exact Or.inr rfl

lemma probeList_nonReadyEvents (hs : Bool) (eo : Nat → Bool) (a : Nat) :
    probeList (nonReadyEvents hs eo a) = [a] := by
  cases hs <;> simp [probeList, nonReadyEvents]

lemma probeList_append (l₁ l₂ : List Event) :
    probeList (l₁ ++ l₂) = probeList l₁ ++ probeList l₂ := by
  simp [probeList]

lemma probeList_iterTrace (hs : Bool) (eo : Nat → Bool) :
    ∀ (n a : Nat), probeList (iterTrace hs eo a n) = List.range' a n := by
  intro n
  induction n with
  | zero => intro a; simp [iterTrace, probeList]
  | succ n ih =>
      intro a
      rw [iterTrace, probeList_append, probeList_nonReadyEvents, ih, List.range'_succ]
      rfl

lemma waitLoop_ready (probe : Nat → HttpOutcome) (hs : Bool) (eo : Nat → Bool) :
    ∀ (i a fuel : Nat), i < fuel →
      check_backend_ready (probe (a + i)) = Except.ok true →
      (∀ j, j < i → check_backend_ready (probe (a + j)) = Except.ok false) →
      waitLoop probe hs eo a fuel =
        (true, iterTrace hs eo a i ++ [Event.probe (a + i)]) := by
  intro i
  induction i with
  | zero =>
      intro a fuel hlt hready _
      obtain ⟨f, rfl⟩ : ∃ f, fuel = f + 1 := ⟨fuel - 1, by omega⟩
      simp only [Nat.add_zero] at hready
      simp [waitLoop, hready, iterTrace]
  | succ i ih =>
      intro a fuel hlt hready hbefore
      obtain ⟨f, rfl⟩ : ∃ f, fuel = f + 1 := ⟨fuel - 1, by omega⟩
      have h0 : check_backend_ready (probe a) = Except.ok false := by
        simpa using hbefore 0 (Nat.succ_pos i)
      have hready' : check_backend_ready (probe (a + 1 + i)) = Except.ok true := by
        have : a + 1 + i = a + (i + 1) := by omega
        rw [this]; exact hready
      have hbefore' : ∀ j, j < i → check_backend_ready (probe (a + 1 + j)) = Except.ok false := by
        intro j hj
        have : a + 1 + j = a + (j + 1) := by omega
        rw [this]; exact hbefore (j + 1) (by omega)
      have hrec := ih (a + 1) f (by omega) hready' hbefore'
      simp [waitLoop, h0, hrec, iterTrace]
      omega

lemma waitLoop_exhaust (probe : Nat → HttpOutcome) (hs : Bool) (eo : Nat → Bool) :
    ∀ (fuel a : Nat),
      (∀ j, j < fuel → check_backend_ready (probe (a + j)) = Except.ok false) →
      waitLoop probe hs eo a fuel = (false, iterTrace hs eo a fuel) := by
  intro fuel
  induction fuel with
  | zero => intro a _; simp [waitLoop, iterTrace]
  | succ f ih =>
      intro a hall
      have h0 : check_backend_ready (probe a) = Except.ok false := by
        simpa using hall 0 (Nat.succ_pos f)
      have hall' : ∀ j, j < f → check_backend_ready (probe (a + 1 + j)) = Except.ok false := by
        intro j hj
        have : a + 1 + j = a + (j + 1) := by omega
        rw [this]; exact hall (j + 1) (by omega)
      simp [waitLoop, h0, ih (a + 1) hall', iterTrace]

lemma waitLoop_probeCount_le (probe : Nat → HttpOutcome) (hs : Bool) (eo : Nat → Bool) :
    ∀ (fuel a : Nat), probeCount (waitLoop probe hs eo a fuel).2 ≤ fuel := by
  intro fuel
  induction fuel with
  | zero => intro a; simp [waitLoop, probeCount, probeList]
  | succ f ih =>
      intro a
      rcases check_total (probe a) with h | h
      · simp [waitLoop, h, probeCount, probeList]
      · simp only [waitLoop, h]
        have := ih (a + 1)
        simp only [probeCount, probeList_append, List.length_append,
          probeList_nonReadyEvents, List.length_cons, List.length_nil] at *
        omega

lemma waitLoop_no_logError (probe : Nat → HttpOutcome) (hs : Bool) (eo : Nat → Bool) :
    ∀ (fuel a : Nat), logErrorCount (waitLoop probe hs eo a fuel).2 = 0 := by
  intro fuel
  induction fuel with
  | zero => intro a; simp [waitLoop, logErrorCount]
  | succ f ih =>
      intro a
      rcases check_total (probe a) with h | h
      · simp [waitLoop, h, logErrorCount]
      · simp only [waitLoop, h, logErrorCount, List.filter_append, List.length_append]
        have := ih (a + 1)
        simp only [logErrorCount] at this
        rw [this]
        cases hs <;> simp [nonReadyEvents]

lemma mem_iterTrace (hs : Bool) (eo : Nat → Bool) :
    ∀ (n a : Nat) (e : Event), e ∈ iterTrace hs eo a n →
      ∃ k, a ≤ k ∧ k < a + n ∧
        (e = Event.probe k ∨ e = Event.statusUpdate k (statusText k) (eo k) ∨
          e = Event.sleep k RETRY_DELAY_MS) := by
  intro n
  induction n with
  | zero => intro a e h; simp [iterTrace] at h
  | succ m ih =>
      intro a e h
      rw [iterTrace, List.mem_append] at h
      rcases h with h | h
      · refine ⟨a, le_refl a, by omega, ?_⟩
        cases hs <;> simp [nonReadyEvents] at h <;> tauto
      · obtain ⟨k, hk1, hk2, hk3⟩ := ih (a + 1) e h
        exact ⟨k, by omega, by omega, hk3⟩

lemma statusUpdate_mem_waitLoop (probe : Nat → HttpOutcome) (hs : Bool) (eo : Nat → Bool) :
    ∀ (fuel a k : Nat) (t : String) (b : Bool),
      Event.statusUpdate k t b ∈ (waitLoop probe hs eo a fuel).2 →
      a ≤ k ∧ k < a + fuel ∧ t = statusText k ∧ b = eo k := by
  intro fuel
  induction fuel with
  | zero => intro a k t b h; simp [waitLoop] at h
  | succ f ih =>
      intro a k t b h
      rcases check_total (probe a) with hc | hc
      · simp [waitLoop, hc] at h
      · simp only [waitLoop, hc, List.mem_append] at h
        rcases h with h | h
        · cases hs <;> simp [nonReadyEvents] at h
          obtain ⟨rfl, rfl, rfl⟩ := h
          exact ⟨Nat.le_refl _, by omega, rfl, rfl⟩
        · obtain ⟨h1, h2, h3, h4⟩ := ih (a + 1) k t b h
          exact ⟨by omega, by omega, h3, h4⟩

lemma waitLoop_evalOk_irrelevant (probe : Nat → HttpOutcome) (hs : Bool)
    (eo eo' : Nat → Bool) :
    ∀ (fuel a : Nat),
      (waitLoop probe hs eo a fuel).1 = (waitLoop probe hs eo' a fuel).1 ∧
      (waitLoop probe hs eo a fuel).2.map scrubEval =
        (waitLoop probe hs eo' a fuel).2.map scrubEval := by
  intro fuel
  induction fuel with
  | zero => intro a; simp [waitLoop]
  | succ f ih =>
      intro a
      rcases check_total (probe a) with h | h
      · simp [waitLoop, h]
      · obtain ⟨ih1, ih2⟩ := ih (a + 1)
        simp only [waitLoop, h, List.map_append]
        refine ⟨ih1, ?_⟩
        rw [ih2]
        cases hs <;> simp [nonReadyEvents, scrubEval]

/-- Claim C1: if the probe classifies the backend as Ready on attempt `k` (with
`1 ≤ k ≤ MAX_RETRIES`) and as non-Ready on every earlier attempt, then
`wait_for_backend` returns true at attempt `k`, the probes issued are exactly
attempts `1..k` (so attempt `k+1` is never issued), and neither a status
update nor the inter-attempt sleep runs for attempt `k`. -/
theorem wait_for_backend_stops_at_first_ready (probe : Nat → HttpOutcome) (hs : Bool)
    (eo : Nat → Bool) (k : Nat) (hk1 : 1 ≤ k) (hk2 : k ≤ MAX_RETRIES)
    (hready : check_backend_ready (probe k) = Except.ok true)
    (hbefore : ∀ j, 1 ≤ j → j < k → check_backend_ready (probe j) ≠ Except.ok true) :
    (wait_for_backend probe hs eo).1 = true ∧
    probeList (wait_for_backend probe hs eo).2 = List.range' 1 k ∧
    k + 1 ∉ probeList (wait_for_backend probe hs eo).2 ∧
    (∀ t b, Event.statusUpdate k t b ∉ (wait_for_backend probe hs eo).2) ∧
    (∀ ms, Event.sleep k ms ∉ (wait_for_backend probe hs eo).2) := by
  have hb : ∀ j, j < k - 1 → check_backend_ready (probe (1 + j)) = Except.ok false := by
    intro j hj
    rcases check_total (probe (1 + j)) with h | h
    · exact absurd h (hbefore (1 + j) (by omega) (by omega))
    · exact h
  have hr : check_backend_ready (probe (1 + (k - 1))) = Except.ok true := by
    rw [show 1 + (k - 1) = k by omega]; exact hready
  have hmain : wait_for_backend probe hs eo =
      (true, iterTrace hs eo 1 (k - 1) ++ [Event.probe (1 + (k - 1))]) :=
    waitLoop_ready probe hs eo (k - 1) 1 MAX_RETRIES (by omega) hr hb
  rw [show 1 + (k - 1) = k by omega] at hmain
  rw [hmain]
  have hplist : probeList (iterTrace hs eo 1 (k - 1) ++ [Event.probe k]) = List.range' 1 k := by
    rw [probeList_append, probeList_iterTrace]
    have h2 := @List.range'_concat 1 1 (k - 1)
    rw [show 1 + 1 * (k - 1) = k by omega, show k - 1 + 1 = k by omega] at h2
    exact h2.symm
  refine ⟨rfl, hplist, ?_, ?_, ?_⟩
  · rw [hplist, List.mem_range'_1]
    omega
  · intro t b hmem
    rw [List.mem_append] at hmem
    rcases hmem with hmem | hmem
    · obtain ⟨m, hm1, hm2, hm3⟩ := mem_iterTrace hs eo (k - 1) 1 _ hmem
      rcases hm3 with h | h | h <;> simp_all
    · simp at hmem
  · intro ms hmem
    rw [List.mem_append] at hmem
    rcases hmem with hmem | hmem
    · obtain ⟨m, hm1, hm2, hm3⟩ := mem_iterTrace hs eo (k - 1) 1 _ hmem
      rcases hm3 with h | h | h <;> simp_all
    · simp at hmem

/-- Witness for C1: the probe answers HTTP 503 on attempts 1 and 2 and
HTTP 200 on attempt 3; the loop returns true having issued exactly
probes 1, 2, 3, with no status update or sleep on attempt 3. -/
theorem wait_for_backend_stops_at_first_ready_witness :
    (wait_for_backend
        (fun j => if j < 3 then HttpOutcome.response 503 else HttpOutcome.response 200)
        true (fun _ => true)).1 = true ∧
    probeList (wait_for_backend
        (fun j => if j < 3 then HttpOutcome.response 503 else HttpOutcome.response 200)
        true (fun _ => true)).2 = List.range' 1 3 ∧
    Event.statusUpdate 3 (statusText 3) true ∉ (wait_for_backend
        (fun j => if j < 3 then HttpOutcome.response 503 else HttpOutcome.response 200)
        true (fun _ => true)).2 ∧
    Event.sleep 3 RETRY_DELAY_MS ∉ (wait_for_backend
        (fun j => if j < 3 then HttpOutcome.response 503 else HttpOutcome.response 200)
        true (fun _ => true)).2 := by
  have h := wait_for_backend_stops_at_first_ready
    (fun j => if j < 3 then HttpOutcome.response 503 else HttpOutcome.response 200)
    true (fun _ => true) 3 (by omega) (by decide) rfl
    (by
      intro j h1 h2
      have hj : j = 1 ∨ j = 2 := by omega
      have hc : check_backend_ready
          ((fun j => if j < 3 then HttpOutcome.response 503 else HttpOutcome.response 200) j) =
          Except.ok false := by
        rcases hj with rfl | rfl <;> rfl
      rw [hc]; simp)
  exact ⟨h.1, h.2.1, h.2.2.2.1 _ _, h.2.2.2.2 _⟩

/-- Claim C2: for every sequence of probe outcomes the readiness loop performs
at most `MAX_RETRIES` probes (iterations) and terminates with a boolean
result; `MAX_RETRIES` is 120 in this variant. -/
theorem wait_for_backend_bounded_by_max_retries (probe : Nat → HttpOutcome)
    (hs : Bool) (eo : Nat → Bool) :
    probeCount (wait_for_backend probe hs eo).2 ≤ MAX_RETRIES ∧
    MAX_RETRIES = 120 ∧
    ((wait_for_backend probe hs eo).1 = true ∨ (wait_for_backend probe hs eo).1 = false) :=
  ⟨waitLoop_probeCount_le probe hs eo MAX_RETRIES 1, rfl,
    by cases (wait_for_backend probe hs eo).1 <;> simp⟩

/-- Claim C3: if the probe classifies the backend as non-Ready on every one of
the `MAX_RETRIES` attempts, `wait_for_backend` returns false after exactly
`MAX_RETRIES` probes, and the background thread then pushes the error text,
sleeps, and terminates the process with exit status 1. -/
theorem exhausted_retries_fail_and_exit_one (probe : Nat → HttpOutcome) (hs : Bool)
    (eo : Nat → Bool)
    (h : ∀ a, 1 ≤ a → a ≤ MAX_RETRIES → check_backend_ready (probe a) ≠ Except.ok true) :
    (wait_for_backend probe hs eo).1 = false ∧
    probeCount (wait_for_backend probe hs eo).2 = MAX_RETRIES ∧
    backgroundThread probe eo =
      [ThreadAction.evalSplashError, ThreadAction.sleepSecs 3, ThreadAction.exitProcess 1] := by
  have hall : ∀ j, j < MAX_RETRIES → check_backend_ready (probe (1 + j)) = Except.ok false := by
    intro j hj
    rcases check_total (probe (1 + j)) with hc | hc
    · exact absurd hc (h (1 + j) (by omega) (by omega))
    · exact hc
  have hex : ∀ (hs' : Bool) (eo' : Nat → Bool),
      wait_for_backend probe hs' eo' = (false, iterTrace hs' eo' 1 MAX_RETRIES) :=
    fun hs' eo' => waitLoop_exhaust probe hs' eo' MAX_RETRIES 1 hall
  refine ⟨by rw [hex], ?_, ?_⟩
  · rw [hex]
    simp [probeCount, probeList_iterTrace]
  · rw [backgroundThread, show (wait_for_backend probe true eo).1 = false from by rw [hex]]
    simp

/-- Witness for C3: a probe whose every attempt is a refused connection. -/
theorem exhausted_retries_fail_and_exit_one_witness :
    (wait_for_backend (fun _ => HttpOutcome.transportError "connection refused")
        true (fun _ => true)).1 = false ∧
    probeCount (wait_for_backend (fun _ => HttpOutcome.transportError "connection refused")
        true (fun _ => true)).2 = MAX_RETRIES ∧
    backgroundThread (fun _ => HttpOutcome.transportError "connection refused")
        (fun _ => true) =
      [ThreadAction.evalSplashError, ThreadAction.sleepSecs 3, ThreadAction.exitProcess 1] :=
  exhausted_retries_fail_and_exit_one _ true _
    (fun a _ _ => by simp [check_backend_ready])

/-- Claim C4: every status update pushed by the loop carries a message that is
a pure function of the attempt number `a`, taking exactly the three fixed
band texts: "Starting server..." for `a < 10`, "Running database
migrations..." for `10 ≤ a < 30`, and "Almost ready..." for `a ≥ 30`. -/
theorem status_message_banded_by_attempt (probe : Nat → HttpOutcome) (hs : Bool)
    (eo : Nat → Bool) (a : Nat) (t : String) (b : Bool)
    (h : Event.statusUpdate a t b ∈ (wait_for_backend probe hs eo).2) :
    1 ≤ a ∧ a ≤ MAX_RETRIES ∧ t = statusText a ∧
      ((a < 10 ∧ t = "Starting server...") ∨
       (10 ≤ a ∧ a < 30 ∧ t = "Running database migrations...") ∨
       (30 ≤ a ∧ t = "Almost ready...")) := by
  obtain ⟨h1, h2, h3, _⟩ := statusUpdate_mem_waitLoop probe hs eo MAX_RETRIES 1 a t b h
  refine ⟨h1, by omega, h3, ?_⟩
  subst h3
  by_cases ha : a < 10
  · exact Or.inl ⟨ha, by simp [statusText, ha]⟩
  · by_cases hb : a < 30
    · exact Or.inr (Or.inl ⟨by omega, hb, by simp [statusText, ha, hb]⟩)
    · exact Or.inr (Or.inr ⟨by omega, by simp [statusText, ha, hb]⟩)

/-- Witness for C4: with an always-503 probe, the status update of attempt 1
is in the trace and carries the "Starting server..." band text. -/
theorem status_message_banded_by_attempt_witness :
    1 ≤ 1 ∧ 1 ≤ MAX_RETRIES ∧ "Starting server..." = statusText 1 ∧
      ((1 < 10 ∧ "Starting server..." = "Starting server...") ∨
       (10 ≤ 1 ∧ 1 < 30 ∧ "Starting server..." = "Running database migrations...") ∨
       (30 ≤ 1 ∧ "Starting server..." = "Almost ready...")) :=
  status_message_banded_by_attempt (fun _ => HttpOutcome.response 503) true
    (fun _ => true) 1 "Starting server..." true (by decide)

/-- Claim C5: `check_backend_ready` classifies a received response with a 2xx
status code as ready (`Ok(true)`) and a response with any non-success status
code as not ready (`Ok(false)`). -/
theorem check_backend_ready_classifies_status (s : Nat) :
    (200 ≤ s → s < 300 → check_backend_ready (HttpOutcome.response s) = Except.ok true) ∧
    (¬(200 ≤ s ∧ s < 300) → check_backend_ready (HttpOutcome.response s) = Except.ok false) := by
  constructor
  · intro h1 h2
    have hs : is_success s = true := by simp [is_success]; omega
    simp [check_backend_ready, hs]
  · intro h
    have hs : is_success s = false := by simp [is_success]; omega
    simp [check_backend_ready, hs]

/-- Witness for C5: status 200 is classified ready, status 503 not ready. -/
theorem check_backend_ready_classifies_status_witness :
    check_backend_ready (HttpOutcome.response 200) = Except.ok true ∧
    check_backend_ready (HttpOutcome.response 503) = Except.ok false :=
  ⟨(check_backend_ready_classifies_status 200).1 (by omega) (by omega),
    (check_backend_ready_classifies_status 503).2 (by omega)⟩

/-- Claim C6 counterexample: in this code a transport failure is NOT given a
classification distinct from NotReady — `check_backend_ready` maps a refused
connection to exactly the same value `Ok(false)` as a non-success response,
and nothing is logged for it. -/
theorem transport_error_not_distinct_from_not_ready :
    check_backend_ready (HttpOutcome.transportError "connection refused") =
      check_backend_ready (HttpOutcome.response 503) ∧
    check_backend_ready (HttpOutcome.transportError "connection refused") =
      Except.ok false :=
  ⟨rfl, rfl⟩

/-- Claim C6 as amended: when no response is obtainable the probe classifies
the outcome as NotReady (`Ok(false)`), identically to a non-success status
(and without logging — the error-logging arm never fires); for every such
failing attempt the retry loop continues and is never aborted early before
the retry budget is exhausted. -/
theorem transport_errors_never_abort_retry_loop (probe : Nat → HttpOutcome)
    (hs : Bool) (eo : Nat → Bool)
    (h : ∀ a, 1 ≤ a → a ≤ MAX_RETRIES → ∃ m, probe a = HttpOutcome.transportError m) :
    (∀ a, 1 ≤ a → a ≤ MAX_RETRIES → check_backend_ready (probe a) = Except.ok false) ∧
    probeCount (wait_for_backend probe hs eo).2 = MAX_RETRIES ∧
    logErrorCount (wait_for_backend probe hs eo).2 = 0 := by
  have hnot : ∀ a, 1 ≤ a → a ≤ MAX_RETRIES →
      check_backend_ready (probe a) = Except.ok false := by
    intro a h1 h2
    obtain ⟨m, hm⟩ := h a h1 h2
    rw [hm]
    rfl
  have hall : ∀ j, j < MAX_RETRIES → check_backend_ready (probe (1 + j)) = Except.ok false :=
    fun j hj => hnot (1 + j) (by omega) (by omega)
  refine ⟨hnot, ?_, waitLoop_no_logError probe hs eo MAX_RETRIES 1⟩
  rw [wait_for_backend, waitLoop_exhaust probe hs eo MAX_RETRIES 1 hall]
  simp [probeCount, probeList_iterTrace]

/-- Witness for the amended C6: every attempt is a refused connection; all
120 probes are issued and no health-check-error line is logged. -/
theorem transport_errors_never_abort_retry_loop_witness :
    probeCount (wait_for_backend (fun _ => HttpOutcome.transportError "connection refused")
        true (fun _ => true)).2 = MAX_RETRIES ∧
    logErrorCount (wait_for_backend (fun _ => HttpOutcome.transportError "connection refused")
        true (fun _ => true)).2 = 0 :=
  (transport_errors_never_abort_retry_loop _ true _
    (fun _ _ _ => ⟨"connection refused", rfl⟩)).2

/-- Claim C7: the background thread builds the main window if and only if
`wait_for_backend` returned true; a run whose wait returned false never
constructs the main view. -/
theorem main_window_iff_backend_ready (probe : Nat → HttpOutcome) (eo : Nat → Bool) :
    (ThreadAction.buildMainWindow mainUrl ∈ backgroundThread probe eo ↔
      (wait_for_backend probe true eo).1 = true) ∧
    ((wait_for_backend probe true eo).1 = false →
      ∀ u, ThreadAction.buildMainWindow u ∉ backgroundThread probe eo) := by
  cases hres : (wait_for_backend probe true eo).1
  · constructor
    · simp [backgroundThread, hres]
    · intro _ u
      simp [backgroundThread, hres]
  · constructor
    · simp [backgroundThread, hres]
    · intro hfalse
      exact absurd hfalse (by simp)

/-- Witness for C7: with an always-503 probe the wait fails and the main
window is never built. -/
theorem main_window_iff_backend_ready_witness :
    ThreadAction.buildMainWindow mainUrl ∉
      backgroundThread (fun _ => HttpOutcome.response 503) (fun _ => true) :=
  (main_window_iff_backend_ready (fun _ => HttpOutcome.response 503)
    (fun _ => true)).2 rfl mainUrl

/-- Claim C8: errors of the splash `eval` pushing a status update are
swallowed — for any two assignments of success/failure to the per-attempt
eval calls, the loop returns the same result, performs the same probes,
updates and sleeps (trace equal after forgetting eval success), and the
background thread takes the same actions. -/
theorem status_update_errors_swallowed (probe : Nat → HttpOutcome) (hs : Bool)
    (eo eo' : Nat → Bool) :
    (wait_for_backend probe hs eo).1 = (wait_for_backend probe hs eo').1 ∧
    (wait_for_backend probe hs eo).2.map scrubEval =
      (wait_for_backend probe hs eo').2.map scrubEval ∧
    backgroundThread probe eo = backgroundThread probe eo' := by
  obtain ⟨h1, h2⟩ := waitLoop_evalOk_irrelevant probe hs eo eo' MAX_RETRIES 1
  refine ⟨h1, h2, ?_⟩
  rw [backgroundThread, backgroundThread,
    show (wait_for_backend probe true eo).1 = (wait_for_backend probe true eo').1 from
      (waitLoop_evalOk_irrelevant probe true eo eo' MAX_RETRIES 1).1]

/-- Claim C9: the setup sequence attempts at most one sidecar spawn, every
spawn it performs is of `tsw_io_backend` with environment exactly
`PORT=4000`, `MIX_ENV=prod`, `BURRITO=1`, a successful setup performs exactly
one such spawn, and the port is the fixed constant 4000. -/
theorem sidecar_spawned_once_with_fixed_env (s1 s2 : Bool) :
    ((setup s1 s2).1.filter isSpawn).length ≤ 1 ∧
    (∀ n env, SetupAction.spawnSidecar n env ∈ (setup s1 s2).1 →
      n = "tsw_io_backend" ∧
      env = [("PORT", "4000"), ("MIX_ENV", "prod"), ("BURRITO", "1")]) ∧
    ((setup s1 s2).2 = true →
      (setup s1 s2).1.filter isSpawn =
        [SetupAction.spawnSidecar "tsw_io_backend"
          [("PORT", "4000"), ("MIX_ENV", "prod"), ("BURRITO", "1")]]) ∧
    BACKEND_PORT = 4000 := by
  have hts : toString BACKEND_PORT = "4000" := rfl
  refine ⟨?_, ?_, ?_, rfl⟩
  · cases s1 <;> cases s2 <;> decide
  · intro n env hmem
    cases s1 <;> cases s2 <;> simp [setup, hts] at hmem <;> exact hmem
  · cases s1 <;> cases s2 <;> decide

/-- Witness for C9: the successful setup's spawn list is exactly the one
sidecar spawn with the fixed environment. -/
theorem sidecar_spawned_once_with_fixed_env_witness :
    (setup true true).1.filter isSpawn =
      [SetupAction.spawnSidecar "tsw_io_backend"
        [("PORT", "4000"), ("MIX_ENV", "prod"), ("BURRITO", "1")]] :=
  (sidecar_spawned_once_with_fixed_env true true).2.2.1 rfl

/-- Claim C10: `check_backend_ready` is total over `Ok`: every HTTP outcome
(response or transport failure) is classified as `Ok(b)` for some boolean,
never `Err`; consequently the `Err` arm of the match in `wait_for_backend`
never fires and no `Health check error` line is ever logged. -/
theorem check_backend_ready_never_errors :
    (∀ r, ∃ b, check_backend_ready r = Except.ok b) ∧
    (∀ (probe : Nat → HttpOutcome) (hs : Bool) (eo : Nat → Bool),
      logErrorCount (wait_for_backend probe hs eo).2 = 0) := by
  constructor
  · intro r
    rcases check_total r with h | h
    · exact ⟨true, h⟩
    · exact ⟨false, h⟩
  · intro probe hs eo
    exact waitLoop_no_logError probe hs eo MAX_RETRIES 1

end Tsw
